import Mathlib

/-!
Verification of the construction/wiring layer of the pyramidal-cell model
(`hnn_core/pyramidal.py`).  Pure fragments of the Python code are embedded as
Lean functions over exact rationals (geometry, parameters) and reals
(conductance densities); the stateful wiring methods are embedded as explicit
state-passing functions; Python exceptions are embedded as `Except`.
-/

namespace HnnCore

/-! Sections and dendritic geometry (`Pyr.set_dend_props`) -/

/-- Geometric state of one `h.Section`: length, diameter, axial resistivity,
membrane capacitance and segment count.  A freshly created NEURON section has
`nseg = 1`. -/
structure SectionProps where
  L : ℚ
  diam : ℚ
  Ra : ℚ
  cm : ℚ
  nseg : ℕ
deriving Repr, DecidableEq

/-- A freshly created section, before geometry assignment: NEURON's default
segment count is 1 (the other fields' defaults are irrelevant here). -/
def freshSection : SectionProps :=
  { L := 0, diam := 0, Ra := 0, cm := 0, nseg := 1 }

/-- One entry of the dendritic-property table `p_dend_props` built by
`Pyr._get_dend_props`. -/
structure DendProp where
  L : ℚ
  diam : ℚ
  Ra : ℚ
  cm : ℚ
deriving Repr, DecidableEq

/-- Body of the loop in `Pyr.set_dend_props` for one dendrite key: copy the
geometric attributes from the property table, then, when the length exceeds
100, set `nseg` to `int(L / 50.)` and make it odd by adding one when even.
Python's `int` truncates toward zero, which for the positive lengths that can
reach this branch is the floor. -/
def set_dend_props_key (p : DendProp) (s : SectionProps) : SectionProps :=
  let s := { s with L := p.L, diam := p.diam, Ra := p.Ra, cm := p.cm }
  if 100 < p.L then
    let n : ℕ := (⌊p.L / 50⌋).toNat
    { s with nseg := if n % 2 = 0 then n + 1 else n }
  else s

/-- A dendrite property entry whose length is `L` (the remaining attributes do
not influence the segment count). -/
def dendPropOfLen (L : ℚ) : DendProp :=
  { L := L, diam := 1, Ra := 1, cm := 1 }

/-! Distance-dependent conductance (`L5Pyr.__biophys_dends`) -/

/-- Density of the `ar` conductance on L5 dendrites as a function of the path
distance `d` from the soma: `seg.gbar_ar = 1e-6 * np.exp(3e-3 * h.distance(seg.x))`. -/
noncomputable def gbar_ar (d : ℝ) : ℝ :=
  1e-6 * Real.exp (3e-3 * d)

/-- Fractional position of segment `i` of a section discretized into `nseg`
segments: NEURON places segment nodes at `(2*i+1)/(2*nseg)`. -/
noncomputable def segX (nseg i : ℕ) : ℝ :=
  (2 * i + 1) / (2 * nseg)

/-- Path distance from the soma to segment `i` of a dendritic section whose
proximal (0) end lies at path distance `d0` from the soma and whose length is
`L`: `h.distance(seg.x)` accumulates `d0 + L * seg.x` along the tree. -/
noncomputable def segDistance (d0 L : ℝ) (nseg i : ℕ) : ℝ :=
  d0 + L * segX nseg i

/-- The `ar` density the loop in `L5Pyr.__biophys_dends` assigns to segment
`i` of such a section: the exponential is evaluated at each segment's own
path distance, not once per compartment. -/
noncomputable def seg_gbar_ar (d0 L : ℝ) (nseg i : ℕ) : ℝ :=
  gbar_ar (segDistance d0 L nseg i)

/-! String helpers (Python `in` and `startswith` on section/drive names) -/

/-- Whether the first list of characters is an initial run of the second. -/
def charsEqPre : List Char → List Char → Bool
  | [], _ => true
  | _ :: _, [] => false
  | a :: as, b :: bs => a == b && charsEqPre as bs

/-- Whether `needle` occurs contiguously inside the second list. -/
def charsInfixOf (needle : List Char) : List Char → Bool
  | [] => charsEqPre needle []
  | b :: bs => charsEqPre needle (b :: bs) || charsInfixOf needle bs

/-- Python's `needle in hay` on strings. -/
def strContains (hay needle : String) : Bool :=
  charsInfixOf needle.data hay.data

/-- Python's `s.startswith(p)`. -/
def strStarts (s p : String) : Bool :=
  charsEqPre p.data s.data

/-! External-drive wiring (`Pyr.parreceive_ext`) -/

/-- Spatial position of a cell or drive source (an entry of `pos_dict`). -/
abbrev Pos := ℚ × ℚ × ℚ

/-- The `nc_dict` record assembled by the wiring methods before each
`_connect_feed_at_loc` call. -/
structure NcDict where
  pos_src : Pos
  A_weight : ℚ
  A_delay : ℚ
  lamtha : ℚ
  threshold : ℚ
  type_src : String
deriving Repr, DecidableEq

/-- One connection registered by `_Cell._connect_feed_at_loc`: the feed
location, the receptor name, the source gid and the `nc_dict` it was built
from. -/
structure FeedConn where
  feed_loc : String
  receptor : String
  gid_src : ℤ
  nc : NcDict
deriving Repr, DecidableEq

/-- Appending one connection to a `ncfrom_*` list, the effect of
`_Cell._connect_feed_at_loc` visible at this layer. -/
def connect_feed_at_loc (feed_loc receptor : String) (gid_src : ℤ)
    (nc : NcDict) (nc_list : List FeedConn) : List FeedConn :=
  nc_list ++ [⟨feed_loc, receptor, gid_src, nc⟩]

/-- The external-drive parameter table `p_ext` as `parreceive_ext` reads it:
`cellWeights ct` is `p_ext[ct]` when `ct in p_ext.keys()` (index 0 the ampa
weight, index 1 the nmda weight, index 2 the delay), together with the
`lamtha_space`, `lamtha`, `threshold` and `loc` entries. -/
structure PExt where
  cellWeights : String → Option (ℚ × ℚ × ℚ)
  lamtha_space : ℚ
  lamtha : ℚ
  threshold : ℚ
  loc : String

/-- The connection lists of one cell that `parreceive_ext` can append to,
plus a flag recording whether the fall-through `print` warning fired. -/
structure ExtWiring where
  ncfrom_common : List FeedConn
  ncfrom_extgauss : List FeedConn
  ncfrom_extpois : List FeedConn
  warned : Bool
deriving Repr, DecidableEq

/-- A cell with no external connections registered yet. -/
def emptyExtWiring : ExtWiring :=
  ⟨[], [], [], false⟩

/-- Embedding of `Pyr.parreceive_ext`: dispatch on the drive-type string; for
evoked drives append ampa then nmda connections at `p_ext['loc']`; for
`extgauss` append a single ampa connection at the proximal location (only
index 0 of the weight pair is read); for `extpois` append an ampa connection
at the proximal location and, when the nmda weight is strictly positive, also
an nmda connection there; any other type string only triggers the warning
`print`.  Each branch is guarded by `self.celltype in p_ext.keys()`. -/
def parreceive_ext (celltype ty : String) (gid : ℤ)
    (gid_dict : String → ℤ) (pos_dict : String → ℤ → Pos)
    (p_ext : PExt) (cell : ExtWiring) : ExtWiring :=
  if strStarts ty "evprox" || strStarts ty "evdist" then
    match p_ext.cellWeights celltype with
    | some (wa, wn, dly) =>
      let gid_ev := gid + gid_dict ty
      let ncA : NcDict :=
        ⟨pos_dict ty gid, wa, dly, p_ext.lamtha_space, p_ext.threshold, ty⟩
      let ncN : NcDict :=
        ⟨pos_dict ty gid, wn, dly, p_ext.lamtha_space, p_ext.threshold, ty⟩
      let withAmpa :=
        connect_feed_at_loc p_ext.loc "ampa" gid_ev ncA cell.ncfrom_common
      let withNmda := connect_feed_at_loc p_ext.loc "nmda" gid_ev ncN withAmpa
      { cell with ncfrom_common := withNmda }
    | none => cell
  else if ty = "extgauss" then
    match p_ext.cellWeights celltype with
    | some (wa, _wn, dly) =>
      let gid_eg := gid + gid_dict "extgauss"
      let nc : NcDict :=
        ⟨pos_dict "extgauss" gid, wa, dly, p_ext.lamtha, p_ext.threshold, ty⟩
      let withAmpa :=
        connect_feed_at_loc "proximal" "ampa" gid_eg nc cell.ncfrom_extgauss
      { cell with ncfrom_extgauss := withAmpa }
    | none => cell
  else if ty = "extpois" then
    match p_ext.cellWeights celltype with
    | some (wa, wn, dly) =>
      let gid_ep := gid + gid_dict "extpois"
      let nc : NcDict :=
        ⟨pos_dict "extpois" gid, wa, dly, p_ext.lamtha_space,
         p_ext.threshold, ty⟩
      let l1 := connect_feed_at_loc "proximal" "ampa" gid_ep nc
        cell.ncfrom_extpois
      let l2 :=
        if 0 < wn then
          connect_feed_at_loc "proximal" "nmda" gid_ep
            { nc with A_weight := wn } l1
        else l1
      { cell with ncfrom_extpois := l2 }
    | none => cell
  else
    { cell with warned := true }

/-- Sample gid ranges: every population's range starts at 0. -/
def sampleGidDict : String → ℤ :=
  fun _ => 0

/-- Sample positions: every source sits at the origin. -/
def samplePosDict : String → ℤ → Pos :=
  fun _ _ => (0, 0, 0)

/-- A sample external-drive parameter table listing only `L5Pyr`, with ampa
weight 1, nmda weight 2 and delay 3. -/
def samplePExt : PExt :=
  ⟨fun ct => if ct = "L5Pyr" then some (1, 2, 3) else none, 100, 20, 0,
   "proximal"⟩

/-- The same sample table with the nmda weight replaced by 0. -/
def samplePExtZeroNmda : PExt :=
  ⟨fun ct => if ct = "L5Pyr" then some (1, 0, 3) else none, 100, 20, 0,
   "proximal"⟩

/-! Synapse registry (`Pyr._synapse_create`) -/

/-- Kinetic parameters of one receptor model, one entry of the table built by
`Pyr._get_syn_props`: reversal potential and the two time constants. -/
structure SynProps where
  e : ℚ
  tau1 : ℚ
  tau2 : ℚ
deriving Repr, DecidableEq

/-- The full `p_syn` table: one `SynProps` per receptor name. -/
structure PSyn where
  ampa : SynProps
  nmda : SynProps
  gabaa : SynProps
  gabab : SynProps
deriving Repr, DecidableEq

/-- One synapse instance as `_Cell.syn_create` records it: the section it is
attached to, the fractional position on that section, and the kinetic
parameters. -/
structure SynEntry where
  sect : String
  x : ℚ
  e : ℚ
  tau1 : ℚ
  tau2 : ℚ
deriving Repr, DecidableEq

/-- Embedding of `_Cell.syn_create(sec(x), e, tau1, tau2)`. -/
def syn_create (sect : String) (x : ℚ) (p : SynProps) : SynEntry :=
  ⟨sect, x, p.e, p.tau1, p.tau2⟩

/-- Embedding of `Pyr._synapse_create`: build the `self.synapses` dictionary
in insertion order.  Each `self.dends[...]` subscript is a Python dict lookup
that raises `KeyError` on a missing key; a missing dendrite therefore aborts
the construction with an error naming the absent location. -/
def synapse_create (name soma : String) (dends : String → Option String)
    (p_syn : PSyn) : Except String (List (String × SynEntry)) :=
  let l0 := [("soma_gabaa", syn_create soma (1/2) p_syn.gabaa),
             ("soma_gabab", syn_create soma (1/2) p_syn.gabab)]
  match dends "apical_oblique" with
  | none => Except.error "apical_oblique"
  | some ob =>
    let l1 := l0 ++
      [("apicaloblique_ampa", syn_create ob (1/2) p_syn.ampa),
       ("apicaloblique_nmda", syn_create ob (1/2) p_syn.nmda)]
    match dends "basal_2" with
    | none => Except.error "basal_2"
    | some b2 =>
      let l2 := l1 ++
        [("basal2_ampa", syn_create b2 (1/2) p_syn.ampa),
         ("basal2_nmda", syn_create b2 (1/2) p_syn.nmda)]
      match dends "basal_3" with
      | none => Except.error "basal_3"
      | some b3 =>
        let l3 := l2 ++
          [("basal3_ampa", syn_create b3 (1/2) p_syn.ampa),
           ("basal3_nmda", syn_create b3 (1/2) p_syn.nmda)]
        match dends "apical_tuft" with
        | none => Except.error "apical_tuft"
        | some tuft =>
          let l4 := l3 ++
            [("apicaltuft_ampa", syn_create tuft (1/2) p_syn.ampa),
             ("apicaltuft_nmda", syn_create tuft (1/2) p_syn.nmda)]
          if name = "L5Pyr" then
            Except.ok (l4 ++
              [("apicaltuft_gabaa", syn_create tuft (1/2) p_syn.gabaa)])
          else
            Except.ok l4

/-- Dendrite keys of an `L2Pyr`, in the insertion order of
`Pyr._get_dend_props` (7 dendrites, no second apical segment). -/
def l2_dend_keys : List String :=
  ["apical_trunk", "apical_1", "apical_tuft", "apical_oblique",
   "basal_1", "basal_2", "basal_3"]

/-- Dendrite keys of an `L5Pyr`: the `L2Pyr` set plus the second apical
segment appended by the `props.update` call (8 dendrites). -/
def l5_dend_keys : List String :=
  l2_dend_keys ++ ["apical_2"]

/-- The `self.dends` dictionary after `Pyr.create_dends`: each key of the
dendritic-property table maps to a section named `name + '_' + key`. -/
def builtDends (cellname : String) (keys : List String) :
    String → Option String :=
  fun k => if keys.contains k then some (cellname ++ "_" ++ k) else none

/-- The anatomical locations `_synapse_create` looks up in `self.dends`; the
same four keys are required for both subtypes (the L5-only `gabaa` synapse
reuses `apical_tuft`). -/
def required_syn_locs : List String :=
  ["apical_oblique", "basal_2", "basal_3", "apical_tuft"]

/-- Spec-side definition of the fixed synapse set, written from the spec's
words: keys `location_receptor`; `soma_gabaa`/`soma_gabab` on the soma
midpoint; ampa/nmda pairs at the apicaloblique, basal2, basal3 and apicaltuft
midpoints; for the L5 subtype only, an additional `apicaltuft_gabaa`. -/
def spec_synapse_registry (isL5 : Bool) (soma : String)
    (sect : String → String) (p : PSyn) : List (String × SynEntry) :=
  [("soma_gabaa", ⟨soma, 1/2, p.gabaa.e, p.gabaa.tau1, p.gabaa.tau2⟩),
   ("soma_gabab", ⟨soma, 1/2, p.gabab.e, p.gabab.tau1, p.gabab.tau2⟩),
   ("apicaloblique_ampa",
     ⟨sect "apical_oblique", 1/2, p.ampa.e, p.ampa.tau1, p.ampa.tau2⟩),
   ("apicaloblique_nmda",
     ⟨sect "apical_oblique", 1/2, p.nmda.e, p.nmda.tau1, p.nmda.tau2⟩),
   ("basal2_ampa",
     ⟨sect "basal_2", 1/2, p.ampa.e, p.ampa.tau1, p.ampa.tau2⟩),
   ("basal2_nmda",
     ⟨sect "basal_2", 1/2, p.nmda.e, p.nmda.tau1, p.nmda.tau2⟩),
   ("basal3_ampa",
     ⟨sect "basal_3", 1/2, p.ampa.e, p.ampa.tau1, p.ampa.tau2⟩),
   ("basal3_nmda",
     ⟨sect "basal_3", 1/2, p.nmda.e, p.nmda.tau1, p.nmda.tau2⟩),
   ("apicaltuft_ampa",
     ⟨sect "apical_tuft", 1/2, p.ampa.e, p.ampa.tau1, p.ampa.tau2⟩),
   ("apicaltuft_nmda",
     ⟨sect "apical_tuft", 1/2, p.nmda.e, p.nmda.tau1, p.nmda.tau2⟩)] ++
  (if isL5 then
    [("apicaltuft_gabaa",
      ⟨sect "apical_tuft", 1/2, p.gabaa.e, p.gabaa.tau1, p.gabaa.tau2⟩)]
   else [])

/-- A sample receptor-parameter table (all parameters zero). -/
def samplePSyn : PSyn :=
  ⟨⟨0, 0, 0⟩, ⟨0, 0, 0⟩, ⟨0, 0, 0⟩, ⟨0, 0, 0⟩⟩

/-! Tree topology (`L2Pyr.topol`, `L5Pyr.topol`) -/

/-- Parent attachment map of the `L2Pyr` tree from `L2Pyr.topol`: each child
section maps to its parent and the parent end passed to
`child.connect(parent, parent_end, 0)` — 1 the distal end, 0 the proximal
end. -/
def l2_topol : String → Option (String × ℕ) :=
  fun k =>
    if k = "apical_trunk" then some ("soma", 1)
    else if k = "apical_1" then some ("apical_trunk", 1)
    else if k = "apical_tuft" then some ("apical_1", 1)
    else if k = "apical_oblique" then some ("apical_trunk", 1)
    else if k = "basal_1" then some ("soma", 0)
    else if k = "basal_2" then some ("basal_1", 1)
    else if k = "basal_3" then some ("basal_1", 1)
    else none

/-- Parent attachment map of the `L5Pyr` tree from `L5Pyr.topol`: as for L2
but with the apical chain passing through the second apical segment. -/
def l5_topol : String → Option (String × ℕ) :=
  fun k =>
    if k = "apical_trunk" then some ("soma", 1)
    else if k = "apical_1" then some ("apical_trunk", 1)
    else if k = "apical_2" then some ("apical_1", 1)
    else if k = "apical_tuft" then some ("apical_2", 1)
    else if k = "apical_oblique" then some ("apical_trunk", 1)
    else if k = "basal_1" then some ("soma", 0)
    else if k = "basal_2" then some ("basal_1", 1)
    else if k = "basal_3" then some ("basal_1", 1)
    else none

/-- Follow parent links for at most `fuel` steps; returns the reached root
(a section with no parent), or `none` if the fuel runs out, as it would on a
cycle. -/
def rootFrom (parent : String → Option (String × ℕ)) :
    ℕ → String → Option String
  | 0, _ => none
  | fuel + 1, k =>
    match parent k with
    | none => some k
    | some (pr, _) => rootFrom parent fuel pr

/-! Axial projection factors (`Pyr.get_sectnames`) -/

/-- Modelled from the spec: the soma section is created by `_Cell.create_soma`
in `cell.py`, which is not part of this source tree.  Its section name is
modelled as `name + '_soma'`; all the spec needs of it is that it contains
neither `basal` nor `apical_oblique`. -/
def somaSectName (cellname : String) : String :=
  cellname ++ "_soma"

/-- Section names of the whole tree of a built cell: the soma plus one
section named `name + '_' + key` per dendrite key (`Pyr.create_dends`). -/
def wholetreeNames (cellname : String) (keys : List String) : List String :=
  somaSectName cellname :: keys.map (fun k => cellname ++ "_" ++ k)

/-- Body of the loop in `Pyr.get_sectnames` for one section name: the factor
starts at 1, is scaled to `sqrt(2)/2` for names containing `basal_2` or
`basal_3`, zeroed for names containing `apical_oblique`, and finally negated
for every name containing `basal`. -/
noncomputable def yscaleOf (key : String) : ℝ :=
  let d1 : ℝ :=
    if strContains key "basal_2" then Real.sqrt 2 / 2
    else if strContains key "basal_3" then Real.sqrt 2 / 2
    else if strContains key "apical_oblique" then 0
    else 1
  if strContains key "basal" then -d1 else d1

/-- The dictionary returned by `Pyr.get_sectnames`: every wholetree section
name mapped to its axial projection factor. -/
noncomputable def get_sectnames (names : List String) : List (String × ℝ) :=
  names.map (fun k => (k, yscaleOf k))

/-! Common-input wiring (`Pyr.parreceive`) -/

/-- One entry of the `p_ext` list for common sources in `Pyr.parreceive`:
per-receptor `(weight, delay)` pairs keyed by the string
`name + '_' + receptor`, plus `lamtha`, `threshold` and the feed location. -/
structure PSrc where
  weights : String → Option (ℚ × ℚ)
  lamtha : ℚ
  threshold : ℚ
  loc : String

/-- One receptor step of `Pyr.parreceive`.  In the source the assignment to
`nc_dict` is guarded by `if f'{self.name}_{receptor}' in p_src.keys():` but
the `_connect_feed_at_loc` call sits outside that conditional: it always
runs, reusing whatever `nc_dict` the function last assigned when the key is
absent, and hitting Python's unbound-local error when no assignment ever
happened.  The threaded `Option NcDict` is that local variable. -/
def parreceive_receptor (name : String) (gid_src : ℤ) (p_src : PSrc)
    (pos : Pos) (receptor : String) (st : Option NcDict × List FeedConn) :
    Except String (Option NcDict × List FeedConn) :=
  let ncNow : Option NcDict :=
    match p_src.weights (name ++ "_" ++ receptor) with
    | some (w, dly) =>
      some ⟨pos, w, dly, p_src.lamtha, p_src.threshold, "ext"⟩
    | none => st.1
  match ncNow with
  | none => Except.error "UnboundLocalError"
  | some nc =>
    Except.ok (some nc,
      connect_feed_at_loc p_src.loc receptor gid_src nc st.2)

/-- Embedding of `Pyr.parreceive`: iterate over the zipped common sources
`(gid_src, p_src, pos)` and, for each, over the receptors `ampa` then
`nmda`, threading the `nc_dict` local through the whole loop nest. -/
def parreceive (name : String) (common : List (ℤ × PSrc × Pos)) :
    Except String (List FeedConn) := do
  let st ← common.foldlM
    (fun st trip => do
      let st1 ← parreceive_receptor name trip.1 trip.2.1 trip.2.2 "ampa" st
      parreceive_receptor name trip.1 trip.2.1 trip.2.2 "nmda" st1)
    ((none : Option NcDict), ([] : List FeedConn))
  Except.ok st.2

/-- A sample common source defining only the ampa key for `L2Pyr`, with
weight 7 and delay 2. -/
def samplePSrcAmpaOnly : PSrc :=
  ⟨fun k => if k = "L2Pyr_ampa" then some (7, 2) else none, 5, 0,
   "proximal"⟩

/-- A sample common source defining no receptor keys at all. -/
def samplePSrcNoKeys : PSrc :=
  ⟨fun _ => none, 5, 0, "proximal"⟩

/-- A sample source position at the origin. -/
def samplePos : Pos :=
  (0, 0, 0)

end HnnCore

namespace HnnCore

/-- C1: for every dendrite compartment, a resolved length above 100 sets the
segment count to `⌊L/50⌋`, incremented by one when that value is even, so the
final count is odd; a length of at most 100 keeps the fresh section's segment
count 1.  Lengths 150, 200 and 80 yield 3, 5 and 1 respectively. -/
theorem c1_segment_count :
    (∀ p : DendProp, 100 < p.L →
      (set_dend_props_key p freshSection).nseg =
        (if (⌊p.L / 50⌋).toNat % 2 = 0 then (⌊p.L / 50⌋).toNat + 1
         else (⌊p.L / 50⌋).toNat) ∧
      (set_dend_props_key p freshSection).nseg % 2 = 1) ∧
    (∀ p : DendProp, p.L ≤ 100 → (set_dend_props_key p freshSection).nseg = 1) ∧
    (set_dend_props_key (dendPropOfLen 150) freshSection).nseg = 3 ∧
    (set_dend_props_key (dendPropOfLen 200) freshSection).nseg = 5 ∧
    (set_dend_props_key (dendPropOfLen 80) freshSection).nseg = 1 := by
  refine ⟨?_, ?_,
    by norm_num [set_dend_props_key, dendPropOfLen, freshSection]; decide,
    by norm_num [set_dend_props_key, dendPropOfLen, freshSection]; decide,
    by norm_num [set_dend_props_key, dendPropOfLen, freshSection]⟩
  · intro p hp
    have hnot : ¬ p.L ≤ 100 := not_le.mpr hp
    constructor
    · simp [set_dend_props_key, if_neg hnot, hp]
    · simp only [set_dend_props_key, if_pos hp]
      rcases Nat.even_or_odd ((⌊p.L / 50⌋).toNat) with he | ho
      · have h0 : (⌊p.L / 50⌋).toNat % 2 = 0 := Nat.even_iff.mp he
        simp [h0, Nat.add_mod, h0]
      · have h1 : (⌊p.L / 50⌋).toNat % 2 = 1 := Nat.odd_iff.mp ho
        simp [h1]
  · intro p hp
    have hnot : ¬ 100 < p.L := not_lt.mpr hp
    simp [set_dend_props_key, if_neg hnot, freshSection]

/-- Concrete instantiation of the universally quantified parts of
`c1_segment_count` at length 150 (above 100) and length 80 (at most 100). -/
theorem c1_segment_count_witness :
    (100 < (dendPropOfLen 150).L ∧
      ((set_dend_props_key (dendPropOfLen 150) freshSection).nseg =
        (if (⌊(dendPropOfLen 150).L / 50⌋).toNat % 2 = 0 then
          (⌊(dendPropOfLen 150).L / 50⌋).toNat + 1
         else (⌊(dendPropOfLen 150).L / 50⌋).toNat) ∧
       (set_dend_props_key (dendPropOfLen 150) freshSection).nseg % 2 = 1)) ∧
    ((dendPropOfLen 80).L ≤ 100 ∧
      (set_dend_props_key (dendPropOfLen 80) freshSection).nseg = 1) :=
  ⟨⟨by norm_num [dendPropOfLen],
    c1_segment_count.1 (dendPropOfLen 150) (by norm_num [dendPropOfLen])⟩,
   ⟨by norm_num [dendPropOfLen],
    c1_segment_count.2.1 (dendPropOfLen 80) (by norm_num [dendPropOfLen])⟩⟩

/-- C2: the `ar` density on L5 dendrites is `1e-6 * exp(3e-3 * d)` at path
distance `d` from the soma (so its value at the soma itself is the base
density `1e-6`), it is strictly increasing in path distance, and, being
evaluated per segment, within one section of positive length later segments
receive strictly larger densities than earlier ones. -/
theorem c2_gbar_ar_gradient :
    gbar_ar 0 = 1e-6 ∧
    (∀ d1 d2 : ℝ, d1 < d2 → gbar_ar d1 < gbar_ar d2) ∧
    (∀ d0 L : ℝ, 0 < L → ∀ n i j : ℕ, i < j → j < n →
      seg_gbar_ar d0 L n i < seg_gbar_ar d0 L n j) := by
  have hmono : ∀ d1 d2 : ℝ, d1 < d2 → gbar_ar d1 < gbar_ar d2 := by
    intro d1 d2 h
    unfold gbar_ar
    have h6 : (0:ℝ) < 1e-6 := by norm_num
    refine mul_lt_mul_of_pos_left ?_ h6
    exact Real.exp_lt_exp.mpr (by nlinarith)
  refine ⟨by simp [gbar_ar], hmono, ?_⟩
  intro d0 L hL n i j hij hjn
  refine hmono _ _ ?_
  unfold segDistance segX
  have hn : (0:ℝ) < 2 * n := by
    have hn0 : 0 < n := lt_of_le_of_lt (Nat.zero_le i) (lt_trans hij hjn)
    have : (0:ℝ) < (n:ℝ) := by exact_mod_cast hn0
    linarith
  have hnum : ((2 * (i:ℝ) + 1)) < (2 * (j:ℝ) + 1) := by
    have : (i:ℝ) < (j:ℝ) := by exact_mod_cast hij
    linarith
  have hx : (2 * (i:ℝ) + 1) / (2 * (n:ℝ)) < (2 * (j:ℝ) + 1) / (2 * (n:ℝ)) := by
    rw [div_lt_div_iff₀ hn hn]
    nlinarith
  have := mul_lt_mul_of_pos_left hx hL
  linarith

/-- Concrete instantiation of `c2_gbar_ar_gradient`: distances 0 < 1 give a
strict density increase, and segment 0 of a 3-segment section of length 1 gets
a strictly smaller density than segment 2. -/
theorem c2_gbar_ar_gradient_witness :
    gbar_ar 0 < gbar_ar 1 ∧ seg_gbar_ar 0 1 3 0 < seg_gbar_ar 0 1 3 2 :=
  ⟨c2_gbar_ar_gradient.2.1 0 1 (by norm_num),
   c2_gbar_ar_gradient.2.2 0 1 (by norm_num) 3 0 2 (by norm_num) (by norm_num)⟩

/-- C3: a Poisson drive source targeting a cell whose type is in the drive's
parameter table creates exactly one ampa connection at the proximal location
unconditionally, and exactly one nmda connection at the proximal location
precisely when the configured nmda weight is strictly positive; every
connection it creates is proximal, ampa connections carry the ampa weight and
nmda connections the nmda weight. -/
theorem c3_poisson_wiring (celltype : String) (gid : ℤ)
    (gid_dict : String → ℤ) (pos_dict : String → ℤ → Pos) (p : PExt)
    (wa wn dly : ℚ) (h : p.cellWeights celltype = some (wa, wn, dly)) :
    ((parreceive_ext celltype "extpois" gid gid_dict pos_dict p
        emptyExtWiring).ncfrom_extpois.countP
      (fun c => c.receptor == "ampa" && c.feed_loc == "proximal") = 1) ∧
    ((parreceive_ext celltype "extpois" gid gid_dict pos_dict p
        emptyExtWiring).ncfrom_extpois.countP
      (fun c => c.receptor == "nmda" && c.feed_loc == "proximal") =
        if 0 < wn then 1 else 0) ∧
    (∀ c ∈ (parreceive_ext celltype "extpois" gid gid_dict pos_dict p
        emptyExtWiring).ncfrom_extpois,
      c.feed_loc = "proximal" ∧
      (c.receptor = "ampa" → c.nc.A_weight = wa) ∧
      (c.receptor = "nmda" → c.nc.A_weight = wn)) := by
  have hd : (strStarts "extpois" "evprox" || strStarts "extpois" "evdist")
      = false := rfl
  by_cases hw : 0 < wn <;>
    simp [parreceive_ext, hd, h, hw, connect_feed_at_loc, emptyExtWiring,
      List.countP_append, List.countP_cons, List.countP_nil]

/-- Concrete instantiation of `c3_poisson_wiring` on a sample drive table. -/
theorem c3_poisson_wiring_witness :
    ((parreceive_ext "L5Pyr" "extpois" 0 sampleGidDict samplePosDict
        samplePExt emptyExtWiring).ncfrom_extpois.countP
      (fun c => c.receptor == "ampa" && c.feed_loc == "proximal") = 1) ∧
    ((parreceive_ext "L5Pyr" "extpois" 0 sampleGidDict samplePosDict
        samplePExt emptyExtWiring).ncfrom_extpois.countP
      (fun c => c.receptor == "nmda" && c.feed_loc == "proximal") =
        if (0:ℚ) < 2 then 1 else 0) ∧
    (∀ c ∈ (parreceive_ext "L5Pyr" "extpois" 0 sampleGidDict samplePosDict
        samplePExt emptyExtWiring).ncfrom_extpois,
      c.feed_loc = "proximal" ∧
      (c.receptor = "ampa" → c.nc.A_weight = 1) ∧
      (c.receptor = "nmda" → c.nc.A_weight = 2)) :=
  c3_poisson_wiring "L5Pyr" 0 sampleGidDict samplePosDict samplePExt
    1 2 3 rfl

/-- C4: a Gaussian-background drive source targeting a cell whose type is in
the drive's parameter table creates exactly one connection — ampa at the
proximal location, carrying the ampa weight — touches no other connection
list, and its entire effect is independent of the configured nmda weight. -/
theorem c4_gauss_wiring (celltype : String) (gid : ℤ)
    (gid_dict : String → ℤ) (pos_dict : String → ℤ → Pos) (p p' : PExt)
    (wa wn wn' dly : ℚ)
    (h : p.cellWeights celltype = some (wa, wn, dly))
    (h' : p'.cellWeights celltype = some (wa, wn', dly))
    (hl : p.lamtha = p'.lamtha) (ht : p.threshold = p'.threshold) :
    (parreceive_ext celltype "extgauss" gid gid_dict pos_dict p
        emptyExtWiring).ncfrom_extgauss =
      [⟨"proximal", "ampa", gid + gid_dict "extgauss",
        ⟨pos_dict "extgauss" gid, wa, dly, p.lamtha, p.threshold,
         "extgauss"⟩⟩] ∧
    (parreceive_ext celltype "extgauss" gid gid_dict pos_dict p
        emptyExtWiring).ncfrom_common = [] ∧
    (parreceive_ext celltype "extgauss" gid gid_dict pos_dict p
        emptyExtWiring).ncfrom_extpois = [] ∧
    parreceive_ext celltype "extgauss" gid gid_dict pos_dict p
        emptyExtWiring =
      parreceive_ext celltype "extgauss" gid gid_dict pos_dict p'
        emptyExtWiring := by
  have hd : (strStarts "extgauss" "evprox" || strStarts "extgauss" "evdist")
      = false := rfl
  simp [parreceive_ext, hd, h, h', hl, ht, connect_feed_at_loc,
    emptyExtWiring]

/-- Concrete instantiation of `c4_gauss_wiring` on two sample drive tables
differing only in the (unused) nmda weight. -/
theorem c4_gauss_wiring_witness :
    (parreceive_ext "L5Pyr" "extgauss" 0 sampleGidDict samplePosDict
        samplePExt emptyExtWiring).ncfrom_extgauss =
      [⟨"proximal", "ampa", 0 + sampleGidDict "extgauss",
        ⟨samplePosDict "extgauss" 0, 1, 3, samplePExt.lamtha,
         samplePExt.threshold, "extgauss"⟩⟩] ∧
    (parreceive_ext "L5Pyr" "extgauss" 0 sampleGidDict samplePosDict
        samplePExt emptyExtWiring).ncfrom_common = [] ∧
    (parreceive_ext "L5Pyr" "extgauss" 0 sampleGidDict samplePosDict
        samplePExt emptyExtWiring).ncfrom_extpois = [] ∧
    parreceive_ext "L5Pyr" "extgauss" 0 sampleGidDict samplePosDict
        samplePExt emptyExtWiring =
      parreceive_ext "L5Pyr" "extgauss" 0 sampleGidDict samplePosDict
        samplePExtZeroNmda emptyExtWiring :=
  c4_gauss_wiring "L5Pyr" 0 sampleGidDict samplePosDict samplePExt
    samplePExtZeroNmda 1 2 0 3 rfl rfl rfl rfl

/-- C5: a drive-type string that does not start with `evprox` or `evdist` and
is neither `extgauss` nor `extpois` leaves every connection list of the cell
unchanged and only sets the warning flag — no error, no connection. -/
theorem c5_unknown_drive_type (celltype ty : String) (gid : ℤ)
    (gid_dict : String → ℤ) (pos_dict : String → ℤ → Pos) (p : PExt)
    (cell : ExtWiring)
    (h1 : strStarts ty "evprox" = false) (h2 : strStarts ty "evdist" = false)
    (h3 : ty ≠ "extgauss") (h4 : ty ≠ "extpois") :
    parreceive_ext celltype ty gid gid_dict pos_dict p cell =
      { cell with warned := true } := by
  simp [parreceive_ext, h1, h2, h3, h4]

/-- Concrete instantiation of `c5_unknown_drive_type` at the type string
`"extinct"`. -/
theorem c5_unknown_drive_type_witness :
    parreceive_ext "L5Pyr" "extinct" 0 sampleGidDict samplePosDict
      samplePExt emptyExtWiring = { emptyExtWiring with warned := true } :=
  c5_unknown_drive_type "L5Pyr" "extinct" 0 sampleGidDict samplePosDict
    samplePExt emptyExtWiring rfl rfl (by decide) (by decide)

/-- C6: on the built trees, synapse creation succeeds for both subtypes and
produces exactly the fixed named registry of the spec — `soma_gabaa` and
`soma_gabab` on the soma, ampa/nmda pairs at the apicaloblique, basal2,
basal3 and apicaltuft midpoints, plus `apicaltuft_gabaa` for L5 only — with
every synapse at fractional position 0.5 of its section. -/
theorem c6_synapse_registry (soma : String) (p : PSyn) :
    synapse_create "L2Pyr" soma (builtDends "L2Pyr" l2_dend_keys) p =
      Except.ok (spec_synapse_registry false soma
        (fun k => "L2Pyr" ++ "_" ++ k) p) ∧
    synapse_create "L5Pyr" soma (builtDends "L5Pyr" l5_dend_keys) p =
      Except.ok (spec_synapse_registry true soma
        (fun k => "L5Pyr" ++ "_" ++ k) p) ∧
    (spec_synapse_registry false soma (fun k => "L2Pyr" ++ "_" ++ k) p).map
        Prod.fst =
      ["soma_gabaa", "soma_gabab", "apicaloblique_ampa",
       "apicaloblique_nmda", "basal2_ampa", "basal2_nmda", "basal3_ampa",
       "basal3_nmda", "apicaltuft_ampa", "apicaltuft_nmda"] ∧
    (spec_synapse_registry true soma (fun k => "L5Pyr" ++ "_" ++ k) p).map
        Prod.fst =
      ["soma_gabaa", "soma_gabab", "apicaloblique_ampa",
       "apicaloblique_nmda", "basal2_ampa", "basal2_nmda", "basal3_ampa",
       "basal3_nmda", "apicaltuft_ampa", "apicaltuft_nmda",
       "apicaltuft_gabaa"] ∧
    ((spec_synapse_registry false soma (fun k => "L2Pyr" ++ "_" ++ k) p).all
      (fun kv => kv.2.x == 1/2)) = true ∧
    ((spec_synapse_registry true soma (fun k => "L5Pyr" ++ "_" ++ k) p).all
      (fun kv => kv.2.x == 1/2)) = true :=
  ⟨rfl, rfl, rfl, rfl, by simp [spec_synapse_registry],
   by simp [spec_synapse_registry]⟩

/-- C9: for either subtype, if any of the anatomical locations that
`_synapse_create` requires is absent from the dendrite dictionary, synapse
creation fails with an error (the Python `KeyError`, the spec's
`MissingCompartmentError`) rather than being silently skipped. -/
theorem c9_missing_compartment (name soma : String)
    (dends : String → Option String) (p : PSyn) (loc : String)
    (hreq : loc ∈ required_syn_locs) (hmiss : dends loc = none) :
    ∃ e, synapse_create name soma dends p = Except.error e := by
  have hcases : loc = "apical_oblique" ∨ loc = "basal_2" ∨
      loc = "basal_3" ∨ loc = "apical_tuft" := by
    simpa [required_syn_locs] using hreq
  unfold synapse_create
  rcases hcases with rfl | rfl | rfl | rfl
  · exact ⟨"apical_oblique", by simp [hmiss]⟩
  · cases h1 : dends "apical_oblique" with
    | none => exact ⟨"apical_oblique", rfl⟩
    | some ob => exact ⟨"basal_2", by simp [hmiss]⟩
  · cases h1 : dends "apical_oblique" with
    | none => exact ⟨"apical_oblique", rfl⟩
    | some ob =>
      cases h2 : dends "basal_2" with
      | none => exact ⟨"basal_2", rfl⟩
      | some b2 => exact ⟨"basal_3", by simp [hmiss]⟩
  · cases h1 : dends "apical_oblique" with
    | none => exact ⟨"apical_oblique", rfl⟩
    | some ob =>
      cases h2 : dends "basal_2" with
      | none => exact ⟨"basal_2", rfl⟩
      | some b2 =>
        cases h3 : dends "basal_3" with
        | none => exact ⟨"basal_3", rfl⟩
        | some b3 => exact ⟨"apical_tuft", by simp [hmiss]⟩

/-- Concrete instantiation of `c9_missing_compartment`: an empty dendrite
dictionary makes synapse creation fail for the L2 subtype. -/
theorem c9_missing_compartment_witness :
    ∃ e, synapse_create "L2Pyr" "L2Pyr_soma" (fun _ => none) samplePSyn =
      Except.error e :=
  c9_missing_compartment "L2Pyr" "L2Pyr_soma" (fun _ => none) samplePSyn
    "apical_oblique" (by decide) rfl

/-- C7: the L2 tree has exactly 7 named dendrites and the L5 tree 8, the
extra one being the second apical segment; both attachment maps follow the
fixed pattern (apical trunk on the soma's distal end 1, apical segments
chained distally, the oblique branch off the trunk's distal end, the primary
basal branch on the soma's proximal end 0, both secondary basal branches on
the primary basal branch's distal end); the soma has no parent, every
dendrite has one, and every dendrite's parent chain terminates at the soma,
so each tree is acyclic with the soma as its single root. -/
theorem c7_tree_topology :
    l2_dend_keys.length = 7 ∧
    l5_dend_keys.length = 8 ∧
    l5_dend_keys = l2_dend_keys ++ ["apical_2"] ∧
    l2_dend_keys.contains "apical_2" = false ∧
    l2_topol "apical_trunk" = some ("soma", 1) ∧
    l2_topol "apical_1" = some ("apical_trunk", 1) ∧
    l2_topol "apical_tuft" = some ("apical_1", 1) ∧
    l2_topol "apical_oblique" = some ("apical_trunk", 1) ∧
    l2_topol "basal_1" = some ("soma", 0) ∧
    l2_topol "basal_2" = some ("basal_1", 1) ∧
    l2_topol "basal_3" = some ("basal_1", 1) ∧
    l5_topol "apical_trunk" = some ("soma", 1) ∧
    l5_topol "apical_1" = some ("apical_trunk", 1) ∧
    l5_topol "apical_2" = some ("apical_1", 1) ∧
    l5_topol "apical_tuft" = some ("apical_2", 1) ∧
    l5_topol "apical_oblique" = some ("apical_trunk", 1) ∧
    l5_topol "basal_1" = some ("soma", 0) ∧
    l5_topol "basal_2" = some ("basal_1", 1) ∧
    l5_topol "basal_3" = some ("basal_1", 1) ∧
    l2_topol "soma" = none ∧
    l5_topol "soma" = none ∧
    (l2_dend_keys.all fun k => (l2_topol k).isSome) = true ∧
    (l5_dend_keys.all fun k => (l5_topol k).isSome) = true ∧
    (l2_dend_keys.all fun k => rootFrom l2_topol 10 k == some "soma")
      = true ∧
    (l5_dend_keys.all fun k => rootFrom l5_topol 10 k == some "soma")
      = true := by
  decide

/-- C8: across the whole trees of both subtypes, the axial projection factor
is negative for every basal compartment, has magnitude `sqrt(2)/2` for the
two secondary basal branches, is exactly 0 for the oblique apical branch, and
is exactly 1 for every other compartment (soma and remaining apicals); the
two name lists below enumerate the full wholetree of each subtype. -/
theorem c8_axial_projection :
    wholetreeNames "L2Pyr" l2_dend_keys =
      ["L2Pyr_soma", "L2Pyr_apical_trunk", "L2Pyr_apical_1",
       "L2Pyr_apical_tuft", "L2Pyr_apical_oblique", "L2Pyr_basal_1",
       "L2Pyr_basal_2", "L2Pyr_basal_3"] ∧
    wholetreeNames "L5Pyr" l5_dend_keys =
      ["L5Pyr_soma", "L5Pyr_apical_trunk", "L5Pyr_apical_1",
       "L5Pyr_apical_tuft", "L5Pyr_apical_oblique", "L5Pyr_basal_1",
       "L5Pyr_basal_2", "L5Pyr_basal_3", "L5Pyr_apical_2"] ∧
    (yscaleOf "L2Pyr_basal_1" < 0 ∧ yscaleOf "L2Pyr_basal_2" < 0 ∧
     yscaleOf "L2Pyr_basal_3" < 0 ∧ yscaleOf "L5Pyr_basal_1" < 0 ∧
     yscaleOf "L5Pyr_basal_2" < 0 ∧ yscaleOf "L5Pyr_basal_3" < 0) ∧
    (|yscaleOf "L2Pyr_basal_2"| = Real.sqrt 2 / 2 ∧
     |yscaleOf "L2Pyr_basal_3"| = Real.sqrt 2 / 2 ∧
     |yscaleOf "L5Pyr_basal_2"| = Real.sqrt 2 / 2 ∧
     |yscaleOf "L5Pyr_basal_3"| = Real.sqrt 2 / 2) ∧
    (yscaleOf "L2Pyr_apical_oblique" = 0 ∧
     yscaleOf "L5Pyr_apical_oblique" = 0) ∧
    (yscaleOf "L2Pyr_soma" = 1 ∧ yscaleOf "L2Pyr_apical_trunk" = 1 ∧
     yscaleOf "L2Pyr_apical_1" = 1 ∧ yscaleOf "L2Pyr_apical_tuft" = 1 ∧
     yscaleOf "L5Pyr_soma" = 1 ∧ yscaleOf "L5Pyr_apical_trunk" = 1 ∧
     yscaleOf "L5Pyr_apical_1" = 1 ∧ yscaleOf "L5Pyr_apical_2" = 1 ∧
     yscaleOf "L5Pyr_apical_tuft" = 1) := by
  have hpos : (0:ℝ) < Real.sqrt 2 / 2 := by positivity
  have hneg : -(Real.sqrt 2 / 2) < (0:ℝ) := by linarith
  have habs : |(-(Real.sqrt 2 / 2))| = Real.sqrt 2 / 2 := by
    rw [abs_neg, abs_of_pos hpos]
  refine ⟨rfl, rfl,
    ⟨?_, ?_, ?_, ?_, ?_, ?_⟩, ⟨?_, ?_, ?_, ?_⟩, ⟨rfl, rfl⟩,
    ⟨rfl, rfl, rfl, rfl, rfl, rfl, rfl, rfl, rfl⟩⟩
  · show -(1:ℝ) < 0
    norm_num
  · exact hneg
  · exact hneg
  · show -(1:ℝ) < 0
    norm_num
  · exact hneg
  · exact hneg
  · exact habs
  · exact habs
  · exact habs
  · exact habs

/-- C10: in `Pyr.parreceive` the connection-creating call runs for both
receptors whether or not the key `name + '_' + receptor` is present: for a
source defining only the ampa key, an nmda connection is still created and
it reuses the `nc_dict` built for ampa (weight 7 and delay 2 here); for a
source defining no key at all, the operation fails with an unbound-local
error instead of skipping the receptor. -/
theorem c10_parreceive_stale_ncdict :
    parreceive "L2Pyr" [(3, samplePSrcAmpaOnly, samplePos)] =
      Except.ok
        [⟨"proximal", "ampa", 3, ⟨samplePos, 7, 2, 5, 0, "ext"⟩⟩,
         ⟨"proximal", "nmda", 3, ⟨samplePos, 7, 2, 5, 0, "ext"⟩⟩] ∧
    parreceive "L2Pyr" [(3, samplePSrcNoKeys, samplePos)] =
      Except.error "UnboundLocalError" :=
  ⟨rfl, rfl⟩

end HnnCore
